import Mathlib

/-!
Shallow embedding of the fruit-spinner points-award endpoint
(`POST`, src/unnamed/part_000 lines 1-85) of the Machine-fruit repository.

The handler validates the request body, then runs a bounded retry loop
(`MAX_RETRIES = 3`, backoff `RETRY_DELAY * 2 ^ retries`) around a storage
transaction that reads the user row by `telegramId` and performs a
conditional update (optimistic lock on `lastPointsUpdateTimestamp`).
Thrown errors are classified by message substring: a message containing
"User not found" yields HTTP 404; any other error is retried until the
retry budget is exhausted, which yields HTTP 500.
-/

namespace FruitSpinner

/-- Prefix test on character lists, used to embed JavaScript
`String.prototype.includes`. -/
def chStartsWith : List Char → List Char → Bool
  | [], _ => true
  | _ :: _, [] => false
  | a :: as, b :: bs => a == b && chStartsWith as bs

/-- Substring occurrence test on character lists. -/
def chContains (pat : List Char) : List Char → Bool
  | [] => pat.isEmpty
  | b :: bs => chStartsWith pat (b :: bs) || chContains pat bs

/-- Embeds `s.includes(pat)` from JavaScript: `true` iff `pat` occurs as a
contiguous substring of `s` (the empty pattern always occurs). -/
def strIncludes (s pat : String) : Bool :=
  chContains pat.data s.data

/-- The persisted user row (Prisma `user` model fields used by this route). -/
structure User where
  telegramId : String
  points : Int
  pointsBalance : Int
  lastPointsUpdateTimestamp : Nat
  deriving DecidableEq, Repr

/-- Storage: the user table, keyed by `telegramId`. -/
abbrev Store := List User

/-- `prisma.user.findUnique({ where: { telegramId } })`. -/
def findUserByKey (s : Store) (key : String) : Option User :=
  s.find? (fun u => u.telegramId == key)

/-- Replace the row keyed by `key` with `u'`. -/
def setUser (s : Store) (key : String) (u' : User) : Store :=
  s.map fun u => if u.telegramId == key then u' else u

/-- `prisma.user.update` with compound `where { telegramId,
lastPointsUpdateTimestamp }` (the optimistic lock, part_000 lines 36-46):
commits only if the row's version-stamp still equals `expectedStamp`,
incrementing `points` and `pointsBalance` by `delta` and setting the
version-stamp to `now` in one mutation; returns `none` (a throw of
Prisma's record-not-found error) otherwise. -/
def updateUserConditional (s : Store) (key : String) (expectedStamp : Nat)
    (delta : Int) (now : Nat) : Option (User × Store) :=
  match findUserByKey s key with
  | none => none
  | some u =>
    if u.lastPointsUpdateTimestamp = expectedStamp then
      let u' : User := { u with
        points := u.points + delta,
        pointsBalance := u.pointsBalance + delta,
        lastPointsUpdateTimestamp := now }
      some (u', setUser s key u')
    else none

/-- The parsed request body (`FruitSpinnerRequestBody`); `none` models an
absent (`undefined`) field, `some ""` an empty `telegramId`. -/
structure RequestBody where
  telegramId : Option String
  points : Option Int
  deriving DecidableEq, Repr

/-- The validation check of part_000 line 16:
`!telegramId || points === undefined || points < 0`
(an absent or empty `telegramId` is falsy). -/
def isInvalidRequest (b : RequestBody) : Bool :=
  ((b.telegramId.getD "") == "") || b.points.isNone
    || decide ((b.points.getD 0) < 0)

/-- The JSON body returned on success (part_000 lines 48-54; `success: true`
is implicit in this constructor). -/
structure SuccessBody where
  message : String
  updatedPoints : Int
  updatedPointsBalance : Int
  pointsAdded : Int
  deriving DecidableEq, Repr

/-- A response body: either `{ error: ... }` or the success JSON. -/
inductive RespBody where
  | errBody (error : String)
  | okBody (b : SuccessBody)
  deriving DecidableEq, Repr

/-- An HTTP response: status code and JSON body. -/
structure Response where
  status : Nat
  body : RespBody
  deriving DecidableEq, Repr

/-- Everything one run of the handler produces: the HTTP response, the
resulting storage state, how many transaction attempts were made, and the
backoff waits performed (in order, in milliseconds). -/
structure RunOutcome where
  response : Response
  store : Store
  attempts : Nat
  delays : List Nat
  deriving DecidableEq, Repr

def MAX_RETRIES : Nat := 3
def RETRY_DELAY : Nat := 100

/-- One execution of the `prisma.$transaction` closure (part_000 lines
26-55) with no concurrent interference between its read and its commit:
read the row (throw "User not found" if absent), then conditionally
update it against the captured version-stamp. A throw rolls the
transaction back, so the store is unchanged on `Except.error`. -/
def txAttempt (s : Store) (telegramId : String) (points : Int) (now : Nat) :
    Except String (SuccessBody × Store) :=
  match findUserByKey s telegramId with
  | none => Except.error "User not found"
  | some dbUser =>
    match updateUserConditional s telegramId
        dbUser.lastPointsUpdateTimestamp points now with
    | none => Except.error "Record to update not found."
    | some (updatedUser, s') =>
      Except.ok ({ message := "Fruit spinner points added successfully",
                   updatedPoints := updatedUser.points,
                   updatedPointsBalance := updatedUser.pointsBalance,
                   pointsAdded := points }, s')

/-- The `while (retries < MAX_RETRIES)` loop of part_000 lines 23-77,
parameterised by what each transaction attempt does (`tx i s` is the
outcome of the `i`-th `prisma.$transaction` call against store `s`; the
parameter lets the environment inject optimistic-lock conflicts or
gateway failures). Arguments after `tx`: fuel (strictly more than the
remaining loop iterations, so `none` — the loop falling through — is
never reached from `POST`), current store, `retries`, the index of the
next attempt, and the backoff waits performed so far. -/
def awardLoop (tx : Nat → Store → Except String (SuccessBody × Store)) :
    Nat → Store → Nat → Nat → List Nat → Option RunOutcome
  | 0, _, _, _, _ => none
  | fuel + 1, s, retries, attemptIdx, delays =>
    if retries < MAX_RETRIES then
      match tx attemptIdx s with
      | Except.ok (body, s') =>
        some ⟨⟨200, RespBody.okBody body⟩, s', attemptIdx + 1, delays⟩
      | Except.error msg =>
        if strIncludes msg "User not found" then
          some ⟨⟨404, RespBody.errBody "User not found"⟩, s,
                attemptIdx + 1, delays⟩
        else if MAX_RETRIES - 1 ≤ retries then
          some ⟨⟨500,
                 RespBody.errBody "Failed to add points after multiple attempts"⟩,
                s, attemptIdx + 1, delays⟩
        else
          awardLoop tx fuel s (retries + 1) (attemptIdx + 1)
            (delays ++ [RETRY_DELAY * 2 ^ (retries + 1)])
    else none

/-- The whole `POST` handler (part_000 lines 12-85): validate, then run
the retry loop starting from `retries = 0`. A rejected request performs
zero transaction attempts and leaves the store untouched. -/
def POST (tx : Nat → Store → Except String (SuccessBody × Store))
    (b : RequestBody) (s : Store) : Option RunOutcome :=
  if isInvalidRequest b then
    some ⟨⟨400, RespBody.errBody "Invalid request data"⟩, s, 0, []⟩
  else
    awardLoop tx (MAX_RETRIES + 1) s 0 0 []

/-- The sequential (interference-free) transaction: every attempt runs
`txAttempt` with the request's own arguments. -/
def seqTx (telegramId : String) (points : Int) (now : Nat) :
    Nat → Store → Except String (SuccessBody × Store) :=
  fun _ s => txAttempt s telegramId points now

/-- A transaction whose conditional update always fails to commit
(Prisma's record-not-found error), modelling permanent contention. -/
def conflictTx : Nat → Store → Except String (SuccessBody × Store) :=
  fun _ _ => Except.error "Record to update not found."

/-- A transaction whose first attempt fails with a gateway error (a
non-conflict, non-not-found failure) and whose later attempts succeed. -/
def gatewayTx : Nat → Store → Except String (SuccessBody × Store)
  | 0, _ => Except.error "Gateway unavailable"
  | _ + 1, s =>
    Except.ok ({ message := "Fruit spinner points added successfully",
                 updatedPoints := 105, updatedPointsBalance := 105,
                 pointsAdded := 5 }, s)

/-! Helper lemmas shared by the claim theorems. -/
theorem isInvalidRequest_false (id : String) (p : Int)
    (hid : id ≠ "") (hp : 0 ≤ p) :
    isInvalidRequest ⟨some id, some p⟩ = false := by
  have h1 : (id == "") = false := beq_eq_false_iff_ne.mpr hid
  have h2 : decide (p < 0) = false := decide_eq_false (not_lt.mpr hp)
  simp [isInvalidRequest, h1, h2]

theorem findUserByKey_cons (v : User) (rest : Store) (key : String) :
    findUserByKey (v :: rest) key =
      if (v.telegramId == key) = true then some v else findUserByKey rest key := by
  cases h : v.telegramId == key
  · simp only [Bool.false_eq_true, if_false]
    exact List.find?_cons_of_neg _ (by simp [h])
  · simp only [if_true]
    exact List.find?_cons_of_pos _ h

theorem setUser_cons (v : User) (rest : Store) (key : String) (u' : User) :
    setUser (v :: rest) key u' =
      (if (v.telegramId == key) = true then u' else v) :: setUser rest key u' := rfl

theorem findUserByKey_setUser (s : Store) (key : String) (u u' : User)
    (hfind : findUserByKey s key = some u) (hkey : u'.telegramId = key) :
    findUserByKey (setUser s key u') key = some u' := by
  have hu' : (u'.telegramId == key) = true := beq_iff_eq.mpr hkey
  induction s with
  | nil => simp [findUserByKey] at hfind
  | cons v rest ih =>
    rw [setUser_cons]
    cases hv : v.telegramId == key
    · rw [findUserByKey_cons] at hfind ⊢
      simp only [hv, Bool.false_eq_true, if_false] at hfind ⊢
      exact ih hfind
    · rw [findUserByKey_cons]
      simp only [hv, if_true, hu']

theorem award_success (id : String) (p : Int) (now : Nat) (s : Store)
    (u : User) (hid : id ≠ "") (hp : 0 ≤ p)
    (hfind : findUserByKey s id = some u) :
    POST (seqTx id p now) ⟨some id, some p⟩ s =
      some ⟨⟨200, RespBody.okBody
              ⟨"Fruit spinner points added successfully",
               u.points + p, u.pointsBalance + p, p⟩⟩,
            setUser s id { u with
              points := u.points + p,
              pointsBalance := u.pointsBalance + p,
              lastPointsUpdateTimestamp := now },
            1, []⟩ := by
  unfold POST
  rw [isInvalidRequest_false id p hid hp]
  show awardLoop _ 4 s 0 0 [] = _
  unfold awardLoop
  simp [MAX_RETRIES, seqTx, txAttempt, updateUserConditional, hfind]

theorem POST_shape (tx : Nat → Store → Except String (SuccessBody × Store))
    (b : RequestBody) (s : Store) :
    ∃ out, POST tx b s = some out ∧ out.attempts ≤ 3 ∧
      (out.delays = [] ∨ out.delays = [200] ∨ out.delays = [200, 400]) := by
  unfold POST
  by_cases hb : isInvalidRequest b = true
  · rw [if_pos hb]
    exact ⟨_, rfl, by norm_num, Or.inl rfl⟩
  · rw [if_neg hb]
    show ∃ out, awardLoop tx 4 s 0 0 [] = some out ∧ _
    unfold awardLoop
    rw [if_pos (by norm_num [MAX_RETRIES])]
    cases h0 : tx 0 s with
    | ok v =>
      exact ⟨_, rfl, by norm_num, Or.inl rfl⟩
    | error m0 =>
      dsimp only
      cases hm0 : strIncludes m0 "User not found" with
      | true => rw [if_pos rfl]; exact ⟨_, rfl, by norm_num, Or.inl rfl⟩
      | false =>
        rw [if_neg (by simp), if_neg (by norm_num [MAX_RETRIES])]
        unfold awardLoop
        rw [if_pos (by norm_num [MAX_RETRIES])]
        cases h1 : tx 1 s with
        | ok v =>
          exact ⟨_, rfl, by norm_num, Or.inr (Or.inl (by norm_num [RETRY_DELAY]))⟩
        | error m1 =>
          dsimp only
          cases hm1 : strIncludes m1 "User not found" with
          | true =>
            rw [if_pos rfl]
            exact ⟨_, rfl, by norm_num, Or.inr (Or.inl (by norm_num [RETRY_DELAY]))⟩
          | false =>
            rw [if_neg (by simp), if_neg (by norm_num [MAX_RETRIES])]
            unfold awardLoop
            rw [if_pos (by norm_num [MAX_RETRIES])]
            cases h2 : tx 2 s with
            | ok v =>
              exact ⟨_, rfl, by norm_num, Or.inr (Or.inr (by norm_num [RETRY_DELAY]))⟩
            | error m2 =>
              dsimp only
              cases hm2 : strIncludes m2 "User not found" with
              | true =>
                rw [if_pos rfl]
                exact ⟨_, rfl, by norm_num, Or.inr (Or.inr (by norm_num [RETRY_DELAY]))⟩
              | false =>
                rw [if_neg (by simp), if_pos (by norm_num [MAX_RETRIES])]
                exact ⟨_, rfl, by norm_num, Or.inr (Or.inr (by norm_num [RETRY_DELAY]))⟩

theorem findUserByKey_key (s : Store) (key : String) (u : User)
    (hfind : findUserByKey s key = some u) : u.telegramId = key := by
  induction s with
  | nil => simp [findUserByKey] at hfind
  | cons v rest ih =>
    rw [findUserByKey_cons] at hfind
    by_cases hv : (v.telegramId == key) = true
    · rw [if_pos hv] at hfind
      cases hfind
      exact beq_iff_eq.mp hv
    · rw [if_neg hv] at hfind
      exact ih hfind

theorem POST_first_error_404 (tx : Nat → Store → Except String (SuccessBody × Store))
    (b : RequestBody) (s : Store) (m : String)
    (hb : isInvalidRequest b = false)
    (h0 : tx 0 s = Except.error m)
    (hm : strIncludes m "User not found" = true) :
    POST tx b s = some ⟨⟨404, RespBody.errBody "User not found"⟩, s, 1, []⟩ := by
  unfold POST
  rw [hb, if_neg (by simp)]
  show awardLoop tx 4 s 0 0 [] = _
  unfold awardLoop
  rw [if_pos (by norm_num [MAX_RETRIES]), h0]
  dsimp only
  rw [if_pos hm]

/-- C1: for a request with a non-empty `telegramId` of an existing user and
`points = p ≥ 0`, one interference-free `award` call returns HTTP 200 whose
body carries `updatedPoints`/`updatedPointsBalance` equal to the stored
post-update values and `pointsAdded = p`, makes exactly one transaction
attempt (one atomic multi-field update), increments the stored `points` and
`pointsBalance` by exactly `p`, and sets the version-stamp to the new value
`now`, distinct from the old one. -/
theorem award_single_success (id : String) (p : Int) (now : Nat) (s : Store)
    (u : User) (hid : id ≠ "") (hp : 0 ≤ p)
    (hfind : findUserByKey s id = some u)
    (hnew : now ≠ u.lastPointsUpdateTimestamp) :
    ∃ out, POST (seqTx id p now) ⟨some id, some p⟩ s = some out ∧
      out.response.status = 200 ∧
      out.response.body = RespBody.okBody
        ⟨"Fruit spinner points added successfully",
         u.points + p, u.pointsBalance + p, p⟩ ∧
      out.attempts = 1 ∧
      findUserByKey out.store id = some { u with
        points := u.points + p,
        pointsBalance := u.pointsBalance + p,
        lastPointsUpdateTimestamp := now } ∧
      now ≠ u.lastPointsUpdateTimestamp := by
  refine ⟨_, award_success id p now s u hid hp hfind, rfl, rfl, rfl, ?_, hnew⟩
  exact findUserByKey_setUser s id u _ hfind (findUserByKey_key s id u hfind)

/-- C1 witness: the spec scenario `{telegramId:"u1", points:100,
pointsBalance:100}`, `award("u1", 20)`. -/
theorem award_single_success_witness :
    ∃ out, POST (seqTx "u1" 20 5) ⟨some "u1", some 20⟩
        [⟨"u1", 100, 100, 0⟩] = some out ∧
      out.response.status = 200 ∧
      out.response.body = RespBody.okBody
        ⟨"Fruit spinner points added successfully", 120, 120, 20⟩ ∧
      out.attempts = 1 ∧
      findUserByKey out.store "u1" = some ⟨"u1", 120, 120, 5⟩ ∧
      (5 : Nat) ≠ 0 := by
  exact award_single_success "u1" 20 5 [⟨"u1", 100, 100, 0⟩] ⟨"u1", 100, 100, 0⟩
    (by decide) (by decide) (by decide) (by decide)

/-- C3: a valid request whose `telegramId` has no row returns HTTP 404 with
body error "User not found", leaves storage unchanged, and makes exactly one
transaction attempt with no backoff wait — terminal, never retried. -/
theorem user_not_found_terminal (id : String) (p : Int) (now : Nat)
    (s : Store) (hid : id ≠ "") (hp : 0 ≤ p)
    (hfind : findUserByKey s id = none) :
    POST (seqTx id p now) ⟨some id, some p⟩ s =
      some ⟨⟨404, RespBody.errBody "User not found"⟩, s, 1, []⟩ := by
  apply POST_first_error_404 _ _ _ "User not found"
    (isInvalidRequest_false id p hid hp)
  · unfold seqTx txAttempt
    rw [hfind]
  · decide

/-- C3 witness: `award("ghost", 10)` on a store holding only `"u1"`. -/
theorem user_not_found_terminal_witness :
    POST (seqTx "ghost" 10 5) ⟨some "ghost", some 10⟩ [⟨"u1", 100, 100, 0⟩] =
      some ⟨⟨404, RespBody.errBody "User not found"⟩,
            [⟨"u1", 100, 100, 0⟩], 1, []⟩ := by
  exact user_not_found_terminal "ghost" 10 5 [⟨"u1", 100, 100, 0⟩]
    (by decide) (by decide) (by decide)
/-- C4: a request with a missing or empty `telegramId`, an undefined
`points`, or `points < 0` is answered HTTP 400 with body error
"Invalid request data" immediately: zero transaction attempts, storage
untouched; and a request with `points = 0` is not rejected by this check. -/
theorem invalid_request_rejected
    (tx : Nat → Store → Except String (SuccessBody × Store))
    (b : RequestBody) (s : Store)
    (h : b.telegramId = none ∨ b.telegramId = some "" ∨ b.points = none ∨
         ∃ p, b.points = some p ∧ p < 0) :
    POST tx b s =
      some ⟨⟨400, RespBody.errBody "Invalid request data"⟩, s, 0, []⟩ ∧
    ∀ id : String, id ≠ "" → isInvalidRequest ⟨some id, some 0⟩ = false := by
  have hb : isInvalidRequest b = true := by
    obtain h | h | h | ⟨p, hp, hplt⟩ := h
    · simp [isInvalidRequest, h]
    · simp [isInvalidRequest, h]
    · simp [isInvalidRequest, h]
    · simp [isInvalidRequest, hp, hplt]
  exact ⟨by simp [POST, hb], fun id hid => isInvalidRequest_false id 0 hid le_rfl⟩

/-- C4 witness: `award("u1", -5)` is rejected with 400 and no storage
access, while `points = 0` passes validation. -/
theorem invalid_request_rejected_witness :
    POST (seqTx "u1" (-5) 7) ⟨some "u1", some (-5)⟩ [⟨"u1", 100, 100, 0⟩] =
      some ⟨⟨400, RespBody.errBody "Invalid request data"⟩,
            [⟨"u1", 100, 100, 0⟩], 0, []⟩ ∧
    ∀ id : String, id ≠ "" → isInvalidRequest ⟨some id, some 0⟩ = false := by
  exact invalid_request_rejected (seqTx "u1" (-5) 7) ⟨some "u1", some (-5)⟩
    [⟨"u1", 100, 100, 0⟩] (Or.inr (Or.inr (Or.inr ⟨-5, rfl, by decide⟩)))

/-- C9: error classification is by message substring — any first-attempt
error whose message contains "User not found" is answered HTTP 404 with one
attempt, no retry and no wait, for any store (so also when the row exists
and the error came from elsewhere, e.g. a gateway failure): a 404 does not
prove the row was absent. -/
theorem notfound_substring_gives_404 (m : String)
    (tx : Nat → Store → Except String (SuccessBody × Store))
    (b : RequestBody) (s : Store)
    (hb : isInvalidRequest b = false)
    (h0 : tx 0 s = Except.error m)
    (hm : strIncludes m "User not found" = true) :
    POST tx b s = some ⟨⟨404, RespBody.errBody "User not found"⟩, s, 1, []⟩ :=
  POST_first_error_404 tx b s m hb h0 hm

/-- C9 witness: a gateway error mentioning "User not found" yields 404 even
though the row for "u1" is present in the store. -/
theorem notfound_substring_gives_404_witness :
    POST (fun _ _ => Except.error "Gateway timeout: User not found in cache")
        ⟨some "u1", some 5⟩ [⟨"u1", 100, 100, 0⟩] =
      some ⟨⟨404, RespBody.errBody "User not found"⟩,
            [⟨"u1", 100, 100, 0⟩], 1, []⟩ := by
  exact notfound_substring_gives_404 "Gateway timeout: User not found in cache"
    (fun _ _ => Except.error "Gateway timeout: User not found in cache")
    ⟨some "u1", some 5⟩ [⟨"u1", 100, 100, 0⟩] (by decide) rfl (by decide)
/-- C8: `award` is not idempotent — two successive successful awards of the
same `d ≥ 0` to the same existing user increase the stored `points` and
`pointsBalance` by `2 * d` in total. -/
theorem award_not_idempotent (id : String) (d : Int) (now1 now2 : Nat)
    (s : Store) (u : User) (hid : id ≠ "") (hd : 0 ≤ d)
    (hfind : findUserByKey s id = some u) :
    ∃ out1 out2,
      POST (seqTx id d now1) ⟨some id, some d⟩ s = some out1 ∧
      out1.response.status = 200 ∧
      POST (seqTx id d now2) ⟨some id, some d⟩ out1.store = some out2 ∧
      out2.response.status = 200 ∧
      findUserByKey out2.store id = some { u with
        points := u.points + 2 * d,
        pointsBalance := u.pointsBalance + 2 * d,
        lastPointsUpdateTimestamp := now2 } := by
  have hkey := findUserByKey_key s id u hfind
  have h1 := award_success id d now1 s u hid hd hfind
  have hfind1 : findUserByKey (setUser s id ({ u with
        points := u.points + d,
        pointsBalance := u.pointsBalance + d,
        lastPointsUpdateTimestamp := now1 } : User)) id =
      some ({ u with
        points := u.points + d,
        pointsBalance := u.pointsBalance + d,
        lastPointsUpdateTimestamp := now1 } : User) :=
    findUserByKey_setUser s id u _ hfind hkey
  have h2 := award_success id d now2 _ _ hid hd hfind1
  have hfind2 : findUserByKey (setUser (setUser s id ({ u with
        points := u.points + d,
        pointsBalance := u.pointsBalance + d,
        lastPointsUpdateTimestamp := now1 } : User)) id
        (⟨u.telegramId, u.points + d + d, u.pointsBalance + d + d, now2⟩ : User)) id =
      some (⟨u.telegramId, u.points + d + d, u.pointsBalance + d + d, now2⟩ : User) :=
    findUserByKey_setUser _ id _ _ hfind1 hkey
  have hrow : (⟨u.telegramId, u.points + d + d, u.pointsBalance + d + d, now2⟩ : User) =
      ({ u with
        points := u.points + 2 * d,
        pointsBalance := u.pointsBalance + 2 * d,
        lastPointsUpdateTimestamp := now2 } : User) := by
    congr 1 <;> ring
  refine ⟨_, _, h1, rfl, h2, rfl, ?_⟩
  rw [← hrow]
  exact hfind2

/-- C8 witness: two `award("u1", 5)` calls on `pointsBalance = 100` leave
the balance at 110, not 105. -/
theorem award_not_idempotent_witness :
    ∃ out1 out2,
      POST (seqTx "u1" 5 1) ⟨some "u1", some 5⟩ [⟨"u1", 100, 100, 0⟩] =
        some out1 ∧
      out1.response.status = 200 ∧
      POST (seqTx "u1" 5 2) ⟨some "u1", some 5⟩ out1.store = some out2 ∧
      out2.response.status = 200 ∧
      findUserByKey out2.store "u1" = some ⟨"u1", 110, 110, 2⟩ := by
  have h := award_not_idempotent "u1" 5 1 2 [⟨"u1", 100, 100, 0⟩]
    ⟨"u1", 100, 100, 0⟩ (by decide) (by decide) (by decide)
  exact h
/-- C10: a zero-points award on an existing user passes validation, makes
one successful conditional update answered HTTP 200, leaves `points` and
`pointsBalance` unchanged, yet still replaces `lastPointsUpdateTimestamp`
with the new value `now` — so any other in-flight award that captured the
old version-stamp now fails its conditional update (a concurrency
conflict). -/
theorem zero_award_updates_stamp (id : String) (now : Nat) (s : Store)
    (u : User) (hid : id ≠ "")
    (hfind : findUserByKey s id = some u)
    (hnew : now ≠ u.lastPointsUpdateTimestamp) :
    isInvalidRequest ⟨some id, some 0⟩ = false ∧
    ∃ out, POST (seqTx id 0 now) ⟨some id, some 0⟩ s = some out ∧
      out.response.status = 200 ∧ out.attempts = 1 ∧
      findUserByKey out.store id =
        some ({ u with
          lastPointsUpdateTimestamp := now } : User) ∧
      ∀ d now2, updateUserConditional out.store id
        u.lastPointsUpdateTimestamp d now2 = none := by
  have hkey := findUserByKey_key s id u hfind
  have h1 := award_success id 0 now s u hid le_rfl hfind
  have hrow : (⟨u.telegramId, u.points + 0, u.pointsBalance + 0, now⟩ : User) =
      ({ u with
        lastPointsUpdateTimestamp := now } : User) := by
    congr 1 <;> ring
  have hfind1 : findUserByKey (setUser s id (⟨u.telegramId, u.points + 0,
        u.pointsBalance + 0, now⟩ : User)) id =
      some ({ u with
        lastPointsUpdateTimestamp := now } : User) := by
    rw [← hrow]
    exact findUserByKey_setUser s id u _ hfind hkey
  refine ⟨isInvalidRequest_false id 0 hid le_rfl, _, h1, rfl, rfl, hfind1,
    fun d now2 => ?_⟩
  unfold updateUserConditional
  rw [hfind1]
  exact if_neg hnew
/-- C10 witness: `award("u1", 0)` on `{points:100, pointsBalance:100,
stamp:0}` succeeds, keeps both counters at 100, and moves the stamp to 9,
making a conditional update against the old stamp 0 fail. -/
theorem zero_award_updates_stamp_witness :
    isInvalidRequest ⟨some "u1", some 0⟩ = false ∧
    ∃ out, POST (seqTx "u1" 0 9) ⟨some "u1", some 0⟩ [⟨"u1", 100, 100, 0⟩] =
        some out ∧
      out.response.status = 200 ∧ out.attempts = 1 ∧
      findUserByKey out.store "u1" = some ⟨"u1", 100, 100, 9⟩ ∧
      ∀ d now2, updateUserConditional out.store "u1" 0 d now2 = none := by
  exact zero_award_updates_stamp "u1" 9 [⟨"u1", 100, 100, 0⟩]
    ⟨"u1", 100, 100, 0⟩ (by decide) (by decide) (by decide)

theorem awardLoop_last_attempt
    (tx : Nat → Store → Except String (SuccessBody × Store))
    (fuel : Nat) (s : Store) (idx : Nat) (ds : List Nat) :
    ∃ out, awardLoop tx (fuel + 1) s 2 idx ds = some out ∧
      out.delays = ds ∧ out.attempts = idx + 1 := by
  unfold awardLoop
  rw [if_pos (by norm_num [MAX_RETRIES])]
  cases h2 : tx idx s with
  | ok v => exact ⟨_, rfl, rfl, rfl⟩
  | error m =>
    dsimp only
    cases hm : strIncludes m "User not found" with
    | true => rw [if_pos rfl]; exact ⟨_, rfl, rfl, rfl⟩
    | false =>
      rw [if_neg (by simp), if_pos (by norm_num [MAX_RETRIES])]
      exact ⟨_, rfl, rfl, rfl⟩

/-- C5: the loop makes at most `MAX_RETRIES = 3` transaction attempts and
always terminates in a response; when every attempt fails with a retryable
(non-"User not found") error, the call returns HTTP 500 with body error
"Failed to add points after multiple attempts" after exactly 3 attempts —
no fourth attempt is made. -/
theorem retry_cap_and_termination
    (tx : Nat → Store → Except String (SuccessBody × Store))
    (b : RequestBody) (s : Store) :
    (∃ out, POST tx b s = some out ∧ out.attempts ≤ 3) ∧
    (isInvalidRequest b = false →
      (∀ i, i < 3 → ∃ m, tx i s = Except.error m ∧
        strIncludes m "User not found" = false) →
      POST tx b s = some ⟨⟨500,
        RespBody.errBody "Failed to add points after multiple attempts"⟩,
        s, 3, [200, 400]⟩) := by
  constructor
  · obtain ⟨out, hout, hatt, _⟩ := POST_shape tx b s
    exact ⟨out, hout, hatt⟩
  · intro hb hfail
    obtain ⟨m0, h0, hm0⟩ := hfail 0 (by norm_num)
    obtain ⟨m1, h1, hm1⟩ := hfail 1 (by norm_num)
    obtain ⟨m2, h2, hm2⟩ := hfail 2 (by norm_num)
    unfold POST
    rw [hb, if_neg (by simp)]
    show awardLoop tx 4 s 0 0 [] = _
    unfold awardLoop
    rw [if_pos (by norm_num [MAX_RETRIES]), h0]
    dsimp only
    rw [if_neg (by simp [hm0]), if_neg (by norm_num [MAX_RETRIES])]
    unfold awardLoop
    rw [if_pos (by norm_num [MAX_RETRIES]), h1]
    dsimp only
    rw [if_neg (by simp [hm1]), if_neg (by norm_num [MAX_RETRIES])]
    unfold awardLoop
    rw [if_pos (by norm_num [MAX_RETRIES]), h2]
    dsimp only
    rw [if_neg (by simp [hm2]), if_pos (by norm_num [MAX_RETRIES])]
    norm_num [RETRY_DELAY]

/-- C5 witness: permanent conflict on `award("u1", 5)` — termination in at
most 3 attempts, and the exhausted run returns the 500 with exactly 3
attempts and backoff waits 200 and 400. -/
theorem retry_cap_and_termination_witness :
    (∃ out, POST conflictTx ⟨some "u1", some 5⟩ [] = some out ∧
      out.attempts ≤ 3) ∧
    POST conflictTx ⟨some "u1", some 5⟩ [] = some ⟨⟨500,
      RespBody.errBody "Failed to add points after multiple attempts"⟩,
      [], 3, [200, 400]⟩ := by
  have h := retry_cap_and_termination conflictTx ⟨some "u1", some 5⟩ []
  exact ⟨h.1, h.2 (by decide)
    (fun i _ => ⟨"Record to update not found.", rfl, by decide⟩)⟩
theorem awardLoop_from_one_shape
    (tx : Nat → Store → Except String (SuccessBody × Store)) (s : Store) :
    ∃ out, awardLoop tx 3 s 1 1 [200] = some out ∧
      2 ≤ out.attempts ∧ out.delays ≠ [] := by
  unfold awardLoop
  rw [if_pos (by norm_num [MAX_RETRIES])]
  cases h1 : tx 1 s with
  | ok v => exact ⟨_, rfl, by norm_num, by simp⟩
  | error m1 =>
    dsimp only
    cases hm1 : strIncludes m1 "User not found" with
    | true => rw [if_pos rfl]; exact ⟨_, rfl, by norm_num, by simp⟩
    | false =>
      rw [if_neg (by simp), if_neg (by norm_num [MAX_RETRIES])]
      obtain ⟨out, hout, hds, hatt⟩ :=
        awardLoop_last_attempt tx 1 s 2 ([200] ++ [RETRY_DELAY * 2 ^ (1 + 1)])
      refine ⟨out, hout, by omega, ?_⟩
      rw [hds]
      simp

/-- C6 counterexample: a first-attempt failure that is not a concurrency
conflict — a gateway error "Gateway unavailable" — is not propagated
immediately: the handler waits 200 ms, makes a second transaction attempt,
and here even returns HTTP 200, refuting "no further transaction attempt
and no backoff wait" for non-conflict errors. -/
theorem gateway_error_retried_counterexample :
    POST gatewayTx ⟨some "u1", some 5⟩ [] =
      some ⟨⟨200, RespBody.okBody
              ⟨"Fruit spinner points added successfully", 105, 105, 5⟩⟩,
            [], 2, [200]⟩ := by
  decide

/-- C6 amended: errors inside a transaction attempt are classified only by
message substring — a message containing "User not found" is terminal
(404, no retry); every other failure, gateway errors included, is treated
as retryable: the handler records the backoff wait of 200 and proceeds to
a second attempt (continuing the loop at `retries = 1`), so at least two
attempts and a non-empty wait list result; only exhaustion of the 3-attempt
budget surfaces a terminal 500. -/
theorem non_notfound_error_is_retried
    (tx : Nat → Store → Except String (SuccessBody × Store))
    (b : RequestBody) (s : Store) (m : String)
    (hb : isInvalidRequest b = false)
    (h0 : tx 0 s = Except.error m)
    (hm : strIncludes m "User not found" = false) :
    POST tx b s = awardLoop tx 3 s 1 1 [200] ∧
    ∃ out, POST tx b s = some out ∧ 2 ≤ out.attempts ∧ out.delays ≠ [] := by
  have hpost : POST tx b s = awardLoop tx 3 s 1 1 [200] := by
    unfold POST
    rw [hb, if_neg (by simp)]
    show awardLoop tx 4 s 0 0 [] = _
    unfold awardLoop
    rw [if_pos (by norm_num [MAX_RETRIES]), h0]
    dsimp only
    rw [if_neg (by simp [hm]), if_neg (by norm_num [MAX_RETRIES])]
    rfl
  obtain ⟨out, hout, hatt, hds⟩ := awardLoop_from_one_shape tx s
  exact ⟨hpost, out, by rw [hpost]; exact hout, hatt, hds⟩

/-- C6 amended witness: the gateway-failure transaction from the
counterexample, instantiating the amended statement. -/
theorem non_notfound_error_is_retried_witness :
    POST gatewayTx ⟨some "u1", some 5⟩ [] = awardLoop gatewayTx 3 [] 1 1 [200] ∧
    ∃ out, POST gatewayTx ⟨some "u1", some 5⟩ [] = some out ∧
      2 ≤ out.attempts ∧ out.delays ≠ [] := by
  exact non_notfound_error_is_retried gatewayTx ⟨some "u1", some 5⟩ []
    "Gateway unavailable" (by decide) rfl (by decide)

/-- C7: when the first two attempts fail retryably, the waits performed are
exactly 200 before the second attempt and 400 before the third (the
counter is incremented before computing `RETRY_DELAY * 2 ^ retries`); and
in every run whatsoever the wait list is a prefix of `[200, 400]` — a
100 ms wait never occurs. -/
theorem backoff_schedule
    (tx : Nat → Store → Except String (SuccessBody × Store))
    (b : RequestBody) (s : Store)
    (hb : isInvalidRequest b = false)
    (hfail : ∀ i, i < 2 → ∃ m, tx i s = Except.error m ∧
      strIncludes m "User not found" = false) :
    (∃ out, POST tx b s = some out ∧ out.delays = [200, 400]) ∧
    (∀ tx' b' s' out', POST tx' b' s' = some out' →
      out'.delays = [] ∨ out'.delays = [200] ∨ out'.delays = [200, 400]) := by
  constructor
  · obtain ⟨m0, h0, hm0⟩ := hfail 0 (by norm_num)
    obtain ⟨m1, h1, hm1⟩ := hfail 1 (by norm_num)
    have hstep : POST tx b s = awardLoop tx 2 s 2 2 [200, 400] := by
      unfold POST
      rw [hb, if_neg (by simp)]
      show awardLoop tx 4 s 0 0 [] = _
      unfold awardLoop
      rw [if_pos (by norm_num [MAX_RETRIES]), h0]
      dsimp only
      rw [if_neg (by simp [hm0]), if_neg (by norm_num [MAX_RETRIES])]
      unfold awardLoop
      rw [if_pos (by norm_num [MAX_RETRIES]), h1]
      dsimp only
      rw [if_neg (by simp [hm1]), if_neg (by norm_num [MAX_RETRIES])]
      rfl
    obtain ⟨out, hout, hds, _⟩ := awardLoop_last_attempt tx 1 s 2 [200, 400]
    exact ⟨out, by rw [hstep]; exact hout, hds⟩
  · intro tx' b' s' out' hout'
    obtain ⟨out, hout, _, hsh⟩ := POST_shape tx' b' s'
    rw [hout] at hout'
    injection hout' with h
    rw [← h]
    exact hsh

/-- C7 witness: the permanently-conflicting transaction performs waits of
exactly 200 then 400, and no run ever waits 100. -/
theorem backoff_schedule_witness :
    (∃ out, POST conflictTx ⟨some "u1", some 5⟩ [] = some out ∧
      out.delays = [200, 400]) ∧
    (∀ tx' b' s' out', POST tx' b' s' = some out' →
      out'.delays = [] ∨ out'.delays = [200] ∨ out'.delays = [200, 400]) := by
  exact backoff_schedule conflictTx ⟨some "u1", some 5⟩ [] (by decide)
    (fun i _ => ⟨"Record to update not found.", rfl, by decide⟩)
/-!
Concurrency model for C2: N concurrent `award` calls against the same
`telegramId`. Each call's transaction is split at its suspension points
into a read event (capture the version-stamp, part_000 lines 27-29) and a
commit event (the conditional update, lines 36-46), so other calls may
commit in between. A commit whose captured stamp is stale fails and is
retried or, once the budget (`MAX_RETRIES`) is spent, gives up —
mirroring the catch branch of lines 58-76. A successful commit mutates
the row and advances the (monotone) clock used for fresh stamps.
-/

/-- Where one concurrent call stands. -/
inductive Phase where
  | pending
  | readDone (captured : Nat)
  | succeeded
  | exhausted
  deriving DecidableEq, Repr

/-- One in-flight `award` call: its delta, its retry counter, its phase. -/
structure ConcCall where
  delta : Int
  retries : Nat
  phase : Phase
  deriving DecidableEq, Repr

/-- Global state: the shared user row, a clock for fresh version-stamps,
and the per-call states. -/
structure SysState where
  row : User
  clock : Nat
  calls : List ConcCall
  deriving DecidableEq, Repr

def isSucceeded : Phase → Bool
  | Phase.succeeded => true
  | _ => false

def isDone : Phase → Bool
  | Phase.succeeded => true
  | Phase.exhausted => true
  | _ => false

/-- The delta a call contributes to the balance if it has succeeded. -/
def succContribution (c : ConcCall) : Int :=
  if isSucceeded c.phase then c.delta else 0

/-- Sum of the deltas of the calls that have committed successfully. -/
def succeededSum (calls : List ConcCall) : Int :=
  calls.foldr (fun c acc => succContribution c + acc) 0

/-- One atomic event of the interleaved system. -/
inductive Step : SysState → SysState → Prop where
  | read (σ : SysState) (i : Nat) (c : ConcCall)
      (hc : σ.calls[i]? = some c) (hp : c.phase = Phase.pending) :
      Step σ { σ with
        calls := σ.calls.set i
            { c with phase := Phase.readDone σ.row.lastPointsUpdateTimestamp } }
  | commitOk (σ : SysState) (i : Nat) (c : ConcCall) (captured : Nat)
      (hc : σ.calls[i]? = some c) (hp : c.phase = Phase.readDone captured)
      (hstamp : σ.row.lastPointsUpdateTimestamp = captured) :
      Step σ ⟨{ σ.row with
          points := σ.row.points + c.delta,
          pointsBalance := σ.row.pointsBalance + c.delta,
          lastPointsUpdateTimestamp := σ.clock },
        σ.clock + 1,
        σ.calls.set i { c with phase := Phase.succeeded }⟩
  | conflictRetry (σ : SysState) (i : Nat) (c : ConcCall) (captured : Nat)
      (hc : σ.calls[i]? = some c) (hp : c.phase = Phase.readDone captured)
      (hstamp : σ.row.lastPointsUpdateTimestamp ≠ captured)
      (hr : c.retries < MAX_RETRIES - 1) :
      Step σ { σ with
        calls := σ.calls.set i
            { c with retries := c.retries + 1, phase := Phase.pending } }
  | conflictExhaust (σ : SysState) (i : Nat) (c : ConcCall) (captured : Nat)
      (hc : σ.calls[i]? = some c) (hp : c.phase = Phase.readDone captured)
      (hstamp : σ.row.lastPointsUpdateTimestamp ≠ captured)
      (hr : ¬ c.retries < MAX_RETRIES - 1) :
      Step σ { σ with
        calls := σ.calls.set i { c with phase := Phase.exhausted } }

/-- Reachability under any interleaving of events. -/
inductive Reaches : SysState → SysState → Prop where
  | refl (σ : SysState) : Reaches σ σ
  | tail (σ₁ σ₂ σ₃ : SysState) :
      Reaches σ₁ σ₂ → Step σ₂ σ₃ → Reaches σ₁ σ₃

theorem succeededSum_cons (v : ConcCall) (rest : List ConcCall) :
    succeededSum (v :: rest) = succContribution v + succeededSum rest := rfl

theorem succeededSum_set (calls : List ConcCall) (i : Nat) (c c' : ConcCall)
    (hc : calls[i]? = some c) :
    succeededSum (calls.set i c') =
      succeededSum calls - succContribution c + succContribution c' := by
  induction calls generalizing i with
  | nil => simp at hc
  | cons v rest ih =>
    cases i with
    | zero =>
      simp only [List.getElem?_cons_zero, Option.some.injEq] at hc
      subst hc
      rw [List.set_cons_zero, succeededSum_cons, succeededSum_cons]
      ring
    | succ n =>
      simp only [List.getElem?_cons_succ] at hc
      rw [List.set_cons_succ, succeededSum_cons, succeededSum_cons, ih n hc]
      ring

theorem deltas_set (calls : List ConcCall) (i : Nat) (c c' : ConcCall)
    (hc : calls[i]? = some c) (hd : c'.delta = c.delta) :
    (calls.set i c').map ConcCall.delta = calls.map ConcCall.delta := by
  induction calls generalizing i with
  | nil => simp at hc
  | cons v rest ih =>
    cases i with
    | zero =>
      simp only [List.getElem?_cons_zero, Option.some.injEq] at hc
      subst hc
      rw [List.set_cons_zero]
      simp [hd]
    | succ n =>
      simp only [List.getElem?_cons_succ] at hc
      rw [List.set_cons_succ]
      simp [ih n hc]

theorem step_balance_eq (σ σ' : SysState) (h : Step σ σ') :
    σ'.row.pointsBalance - succeededSum σ'.calls =
      σ.row.pointsBalance - succeededSum σ.calls ∧
    σ'.calls.map ConcCall.delta = σ.calls.map ConcCall.delta := by
  cases h with
  | read i c hc hp =>
    refine ⟨?_, deltas_set σ.calls i c _ hc rfl⟩
    have h1 : succContribution c = 0 := by
      unfold succContribution
      rw [hp]
      rfl
    have h2 : succContribution { c with
        phase := Phase.readDone σ.row.lastPointsUpdateTimestamp } = 0 := rfl
    rw [succeededSum_set σ.calls i c _ hc, h1, h2]
    ring
  | commitOk i c captured hc hp hstamp =>
    refine ⟨?_, deltas_set σ.calls i c _ hc rfl⟩
    have h1 : succContribution c = 0 := by
      unfold succContribution
      rw [hp]
      rfl
    have h2 : succContribution { c with phase := Phase.succeeded } = c.delta :=
      rfl
    rw [succeededSum_set σ.calls i c _ hc, h1, h2]
    ring
  | conflictRetry i c captured hc hp hstamp hr =>
    refine ⟨?_, deltas_set σ.calls i c _ hc rfl⟩
    have h1 : succContribution c = 0 := by
      unfold succContribution
      rw [hp]
      rfl
    have h2 : succContribution { c with
        retries := c.retries + 1, phase := Phase.pending } = 0 := rfl
    rw [succeededSum_set σ.calls i c _ hc, h1, h2]
    ring
  | conflictExhaust i c captured hc hp hstamp hr =>
    refine ⟨?_, deltas_set σ.calls i c _ hc rfl⟩
    have h1 : succContribution c = 0 := by
      unfold succContribution
      rw [hp]
      rfl
    have h2 : succContribution { c with phase := Phase.exhausted } = 0 := rfl
    rw [succeededSum_set σ.calls i c _ hc, h1, h2]
    ring

theorem reaches_balance_eq (σ σf : SysState) (h : Reaches σ σf) :
    σf.row.pointsBalance - succeededSum σf.calls =
      σ.row.pointsBalance - succeededSum σ.calls ∧
    σf.calls.map ConcCall.delta = σ.calls.map ConcCall.delta := by
  induction h with
  | refl => exact ⟨rfl, rfl⟩
  | tail σ₂ σ₃ hr hs ih =>
    obtain ⟨h1, h2⟩ := step_balance_eq σ₂ σ₃ hs
    exact ⟨by rw [h1, ih.1], by rw [h2, ih.2]⟩

theorem succeededSum_of_pending (calls : List ConcCall)
    (h : ∀ c ∈ calls, c.phase = Phase.pending) : succeededSum calls = 0 := by
  induction calls with
  | nil => rfl
  | cons v rest ih =>
    have hv := h v (List.mem_cons_self v rest)
    rw [succeededSum_cons, ih (fun c hc => h c (List.mem_cons_of_mem v hc))]
    simp [succContribution, isSucceeded, hv]
/-- C2: under every interleaving of the transaction events of N concurrent
award calls on the same key, once all calls have completed the final
`pointsBalance` equals the initial balance plus the sum of the deltas of
exactly the calls that committed successfully (their deltas unchanged from
the initial request list): no committed award is lost, none is applied
twice, and a call that exhausted its retries contributes nothing. -/
theorem concurrent_awards_no_lost_updates (init final : SysState)
    (hreach : Reaches init final)
    (hpend : ∀ c ∈ init.calls, c.phase = Phase.pending)
    (hdone : ∀ c ∈ final.calls, isDone c.phase = true) :
    final.row.pointsBalance =
      init.row.pointsBalance + succeededSum final.calls ∧
    final.calls.map ConcCall.delta = init.calls.map ConcCall.delta := by
  obtain ⟨h1, h2⟩ := reaches_balance_eq init final hreach
  rw [succeededSum_of_pending init.calls hpend] at h1
  exact ⟨by omega, h2⟩

/-- Initial state of the concrete two-call interleaving: the spec scenario
`pointsBalance = 100` with concurrent `award("u1", 10)` and
`award("u1", 15)`. -/
def cwInit : SysState :=
  ⟨⟨"u1", 100, 100, 0⟩, 1, [⟨10, 0, Phase.pending⟩, ⟨15, 0, Phase.pending⟩]⟩

/-- Both calls have read the stamp 0; call 0 is about to commit. -/
def cwA : SysState :=
  ⟨⟨"u1", 100, 100, 0⟩, 1, [⟨10, 0, Phase.readDone 0⟩, ⟨15, 0, Phase.pending⟩]⟩

def cwB : SysState :=
  ⟨⟨"u1", 100, 100, 0⟩, 1,
   [⟨10, 0, Phase.readDone 0⟩, ⟨15, 0, Phase.readDone 0⟩]⟩

/-- Call 0 committed; call 1 holds a stale stamp. -/
def cwC : SysState :=
  ⟨⟨"u1", 110, 110, 1⟩, 2, [⟨10, 0, Phase.succeeded⟩, ⟨15, 0, Phase.readDone 0⟩]⟩

def cwD : SysState :=
  ⟨⟨"u1", 110, 110, 1⟩, 2, [⟨10, 0, Phase.succeeded⟩, ⟨15, 1, Phase.pending⟩]⟩

def cwE : SysState :=
  ⟨⟨"u1", 110, 110, 1⟩, 2, [⟨10, 0, Phase.succeeded⟩, ⟨15, 1, Phase.readDone 1⟩]⟩

/-- Both calls committed: balance 125 regardless of the conflict. -/
def cwFinal : SysState :=
  ⟨⟨"u1", 125, 125, 2⟩, 3, [⟨10, 0, Phase.succeeded⟩, ⟨15, 1, Phase.succeeded⟩]⟩

/-- C2 witness: the spec's contention scenario — two concurrent awards of
10 and 15 on balance 100, the second conflicting once and retrying — ends
with balance 125 = 100 + (10 + 15). -/
theorem concurrent_awards_no_lost_updates_witness :
    (cwFinal.row.pointsBalance =
      cwInit.row.pointsBalance + succeededSum cwFinal.calls ∧
     cwFinal.calls.map ConcCall.delta = cwInit.calls.map ConcCall.delta) ∧
    cwFinal.row.pointsBalance = 125 := by
  have s1 : Step cwInit cwA :=
    Step.read cwInit 0 ⟨10, 0, Phase.pending⟩ rfl rfl
  have s2 : Step cwA cwB :=
    Step.read cwA 1 ⟨15, 0, Phase.pending⟩ rfl rfl
  have s3 : Step cwB cwC :=
    Step.commitOk cwB 0 ⟨10, 0, Phase.readDone 0⟩ 0 rfl rfl rfl
  have s4 : Step cwC cwD :=
    Step.conflictRetry cwC 1 ⟨15, 0, Phase.readDone 0⟩ 0 rfl rfl
      (by decide) (by decide)
  have s5 : Step cwD cwE :=
    Step.read cwD 1 ⟨15, 1, Phase.pending⟩ rfl rfl
  have s6 : Step cwE cwFinal :=
    Step.commitOk cwE 1 ⟨15, 1, Phase.readDone 1⟩ 1 rfl rfl rfl
  have hreach : Reaches cwInit cwFinal :=
    Reaches.tail _ _ _ (Reaches.tail _ _ _ (Reaches.tail _ _ _
      (Reaches.tail _ _ _ (Reaches.tail _ _ _ (Reaches.tail _ _ _
        (Reaches.refl cwInit) s1) s2) s3) s4) s5) s6
  exact ⟨concurrent_awards_no_lost_updates cwInit cwFinal hreach
    (by decide) (by decide), rfl⟩
end FruitSpinner
